import Mathlib

/-!
Shallow embedding of the in-scope pipeline of `app.py` (Fetcher + Cache +
Aggregator of the Saudi-cities weather dashboard), together with proofs of
the specification's claims about it.

Modelling conventions:
* timestamps (`pd.to_datetime` values) are modelled as `Nat` (a totally
  ordered time axis is all the pipeline uses);
* float quantities (temperature, wind speed, wind direction) are modelled
  as `ℚ` (no NaN appears in the claims under check, and comparisons of
  finite floats agree with the rational order);
* a pandas `DataFrame` of observation rows is modelled as a
  `List HourlyObservation` in row order.
-/

/-- One row of the per-city frame built by `fetch_city_hourly`
(columns `city`, `time`, `temp`, `windspeed`, `winddirection`). -/
structure HourlyObservation where
  city : String
  time : Nat
  temp : ℚ
  windspeed : ℚ
  winddirection : ℚ
deriving Repr, DecidableEq, Inhabited

/-- Error taxonomy of the spec (§7) for fetch failures.  `requests` raising on
connection failure or bad status is `NetworkError`, the 10 s timeout is
`ScheduleTimeout`, and `pd.DataFrame` raising on ragged parallel arrays is
`MalformedResponseError`. -/
inductive FetchError where
  | NetworkError
  | ScheduleTimeout
  | MalformedResponseError
deriving Repr, DecidableEq

/-- The `hourly` object of a successful Open-Meteo response: parallel arrays
keyed `time`, `temperature_2m`, `windspeed_10m`, `winddirection_10m`. -/
structure HourlyPayload where
  time : List Nat
  temperature_2m : List ℚ
  windspeed_10m : List ℚ
  winddirection_10m : List ℚ
deriving Repr, DecidableEq

/-- Row-aligned construction of `pd.DataFrame({...})` from the parallel
arrays: the i-th record pairs the i-th element of each array (the scalar
`city` column broadcasts). -/
def mkRows (c : String) : List Nat → List ℚ → List ℚ → List ℚ → List HourlyObservation
  | t :: ts, x :: xs, w :: ws, d :: ds => ⟨c, t, x, w, d⟩ :: mkRows c ts xs ws ds
  | _, _, _, _ => []

/-- `fetch_city_hourly` (app.py lines 66-99) after a successful HTTP
round-trip.  `resp = none` models `data.get("hourly", {})` being absent or
empty (`if not hourly: return pd.DataFrame()`); with a payload present,
`pd.DataFrame` raises when the parallel arrays have inconsistent lengths,
which is `MalformedResponseError` in the spec's taxonomy, and otherwise
builds the row-aligned frame. -/
def fetch_city_hourly (city_name : String) (resp : Option HourlyPayload) :
    Except FetchError (List HourlyObservation) :=
  match resp with
  | none => .ok []
  | some h =>
    if h.temperature_2m.length = h.time.length ∧ h.windspeed_10m.length = h.time.length ∧
        h.winddirection_10m.length = h.time.length then
      .ok (mkRows city_name h.time h.temperature_2m h.windspeed_10m h.winddirection_10m)
    else
      .error .MalformedResponseError

/-- Cache key of `@st.cache_data`: the argument tuple of
`fetch_city_hourly(city_name, lat, lon, days_back)`. -/
structure CacheKey where
  city : String
  lat : ℚ
  lon : ℚ
  days_back : Nat
deriving Repr, DecidableEq

/-- A cached value together with its creation time. -/
structure CacheEntry where
  value : List HourlyObservation
  createdAt : Nat
deriving Repr, DecidableEq

/-- The in-memory store of `@st.cache_data`, an association list keyed by
the argument tuple (at most one live entry per key). -/
abbrev CacheState := List (CacheKey × CacheEntry)

/-- The `ttl=300` argument of the cache decorator, in seconds. -/
def TTL : Nat := 300

def lookupEntry : CacheState → CacheKey → Option CacheEntry
  | [], _ => none
  | (k', e) :: rest, k => if k' = k then some e else lookupEntry rest k

def storeEntry (s : CacheState) (k : CacheKey) (e : CacheEntry) : CacheState :=
  (k, e) :: s.filter (fun p => p.1 ≠ k)

/-- `fetch_city_hourly.clear()` (app.py line 103): drops every entry. -/
def invalidateAll (_s : CacheState) : CacheState := []

/-- Outcome of one cached call: the returned value or error, the cache state
after the call, and how many network calls this invocation issued. -/
structure FetchOutcome where
  result : Except FetchError (List HourlyObservation)
  state : CacheState
  calls : Nat
deriving Repr

/-- `@st.cache_data(ttl=300)` wrapping the fetch (app.py lines 65-66): on a
hit younger than the TTL the stored value is returned with no network call;
on a miss or an expired entry the underlying fetcher runs, a successful
result is stored with a fresh timestamp, and an error is propagated
uncached. -/
def getOrFetch (fetcher : CacheKey → Except FetchError (List HourlyObservation))
    (s : CacheState) (k : CacheKey) (now : Nat) : FetchOutcome :=
  match lookupEntry s k with
  | some e =>
    if now - e.createdAt < TTL then ⟨.ok e.value, s, 0⟩
    else
      match fetcher k with
      | .ok v => ⟨.ok v, storeEntry s k ⟨v, now⟩, 1⟩
      | .error err => ⟨.error err, s, 1⟩
  | none =>
    match fetcher k with
    | .ok v => ⟨.ok v, storeEntry s k ⟨v, now⟩, 1⟩
    | .error err => ⟨.error err, s, 1⟩

/-- The aggregation step's only failure (app.py lines 118-120): every city
failed or returned empty. -/
inductive BuildError where
  | NoDataError
deriving Repr, DecidableEq

/-- The fetch loop (app.py lines 108-116): walks the selected cities in
order; a successful non-empty frame is appended to `all_dfs`, an exception
produces one `st.error` warning for that city, and an empty frame is
silently skipped. `results c` is the outcome `fetch_city_hourly` delivers
for city `c` in this run. -/
def collect (results : String → Except FetchError (List HourlyObservation)) :
    List String → List (List HourlyObservation) × List String
  | [] => ([], [])
  | c :: cs =>
    match results c with
    | .ok df =>
      if df.isEmpty then collect results cs
      else (df :: (collect results cs).1, (collect results cs).2)
    | .error _ => ((collect results cs).1, c :: (collect results cs).2)

/-- Row order of `df.sort_values("time")`: timestamp ascending. -/
def timeLe (a b : HourlyObservation) : Prop := a.time ≤ b.time

instance : DecidableRel timeLe := fun a b => Nat.decLe a.time b.time

instance : IsTotal HourlyObservation timeLe := ⟨fun a b => Nat.le_total a.time b.time⟩

instance : IsTrans HourlyObservation timeLe := ⟨fun _ _ _ h1 h2 => Nat.le_trans h1 h2⟩

/-- `df.sort_values("time")` (app.py line 123): a sort by timestamp only —
nothing in it consults the city column.  pandas' default `kind='quicksort'`
is documented as not stable, so the relative order of equal-timestamp rows
is implementation-defined; the model must pick one deterministic order and
uses insertion sort, which coincides with numpy's behaviour on frames below
its ~16-element insertion threshold (in particular on the two-row frame of
the tie-break counterexample).  No theorem below treats the model's tie
order as a guarantee of the program: only timestamp-sortedness and the
multiset of rows are claimed. -/
def sortByTime (l : List HourlyObservation) : List HourlyObservation :=
  List.insertionSort timeLe l

/-- `pd.concat(all_dfs); df.sort_values("time")` (app.py lines 118-123): the
merged ObservationSet, or `NoDataError` when no city produced rows. -/
def buildMerged (results : String → Except FetchError (List HourlyObservation))
    (cities : List String) : Except BuildError (List HourlyObservation) :=
  if ((collect results cities).1).isEmpty then .error .NoDataError
  else .ok (sortByTime ((collect results cities).1).flatten)

/-- The per-city warnings (`st.error` calls) of the fetch loop, in selection
order. -/
def buildWarnings (results : String → Except FetchError (List HourlyObservation))
    (cities : List String) : List String :=
  (collect results cities).2

/-- One step of the argmax scan: a strictly larger value replaces the
incumbent, so ties keep the earlier row. -/
def maxStep (f : HourlyObservation → ℚ) (best r : HourlyObservation) : HourlyObservation :=
  if f best < f r then r else best

/-- `df.loc[df[col].idxmax()]`: pandas `idxmax` returns the label of the
first row attaining the maximum, scanning in row order. -/
def firstMaxBy (f : HourlyObservation → ℚ) : List HourlyObservation → Option HourlyObservation
  | [] => none
  | x :: xs => some (xs.foldl (maxStep f) x)

/-- `hottest_row` (app.py line 142). -/
def hottestRow (df : List HourlyObservation) : Option HourlyObservation :=
  firstMaxBy (fun r => r.temp) df

/-- `windiest_row` (app.py line 143). -/
def windiestRow (df : List HourlyObservation) : Option HourlyObservation :=
  firstMaxBy (fun r => r.windspeed) df

/-- `groupby("city", as_index=False).tail(1)`: keeps, in frame order, each
row that is the last row of its city. -/
def tailOnePerCity : List HourlyObservation → List HourlyObservation
  | [] => []
  | x :: xs =>
    if xs.any (fun r => r.city == x.city) then tailOnePerCity xs
    else x :: tailOnePerCity xs

/-- Row order of `sort_values("city")`: city name ascending. -/
def cityLe (a b : HourlyObservation) : Prop := a.city ≤ b.city

instance : DecidableRel cityLe := fun a b => String.decidableLE a.city b.city

instance : IsTotal HourlyObservation cityLe := ⟨fun a b => le_total a.city b.city⟩

instance : IsTrans HourlyObservation cityLe := ⟨fun _ _ _ h1 h2 => le_trans h1 h2⟩

/-- `sort_values("city")`, modelled as a stable sort by city name. -/
def sortByCity (l : List HourlyObservation) : List HourlyObservation :=
  List.insertionSort cityLe l

/-- `latest_rows` (app.py lines 172-177): re-sort by time, take the last row
per city, sort the result by city name. -/
def latestRows (df : List HourlyObservation) : List HourlyObservation :=
  sortByCity (tailOnePerCity (sortByTime df))

/-- The derived views the script renders after a successful merge. -/
structure Derived where
  observations : List HourlyObservation
  hottest : Option HourlyObservation
  windiest : Option HourlyObservation
  latest : List HourlyObservation
deriving Repr, DecidableEq

/-- The whole aggregation step: on `NoDataError` the script stops
(`st.stop()`, app.py line 120) and no derived view is computed; otherwise
the derived views are built from the merged ObservationSet. -/
def build (results : String → Except FetchError (List HourlyObservation))
    (cities : List String) : Except BuildError Derived :=
  (buildMerged results cities).map fun df =>
    { observations := df, hottest := hottestRow df, windiest := windiestRow df,
      latest := latestRows df }

/-- From the spec's words (claim C1): "sorted by timestamp ascending
(stable sort; ties broken by city name)" — the order the merged set is
claimed to carry: timestamp ascending, ties by city name ascending. -/
def timeCityLe (a b : HourlyObservation) : Prop :=
  a.time < b.time ∨ (a.time = b.time ∧ a.city ≤ b.city)

/-- From the spec's words (claim C1): the "union of the successful per-city
row lists", i.e. the concatenation, in selection order, of the lists the
successful fetches returned. -/
def successRows (results : String → Except FetchError (List HourlyObservation))
    (cities : List String) : List HourlyObservation :=
  (cities.filterMap fun c =>
    match results c with
    | .ok df => some df
    | .error _ => none).flatten

/-! ### Helper lemmas about the aggregation step -/

theorem collect_fst_flatten (results : String → Except FetchError (List HourlyObservation)) :
    ∀ cities : List String,
      ((collect results cities).1).flatten = successRows results cities
  | [] => rfl
  | c :: cs => by
    have ih := collect_fst_flatten results cs
    rw [successRows, List.filterMap_cons]
    cases hres : results c with
    | ok df =>
      by_cases hdf : df.isEmpty = true
      · have : df = [] := by simpa using hdf
        simp [collect, hres, hdf, this, ih, successRows]
      · simp [collect, hres, hdf, ih, successRows]
    | error e => simp [collect, hres, ih, successRows]

theorem collect_mem_ne_nil (results : String → Except FetchError (List HourlyObservation)) :
    ∀ cities : List String, ∀ l ∈ (collect results cities).1, l ≠ []
  | [], l, hl => by simp [collect] at hl
  | c :: cs, l, hl => by
    cases hres : results c with
    | ok df =>
      by_cases hdf : df.isEmpty = true
      · simp only [collect, hres, if_pos hdf] at hl
        exact collect_mem_ne_nil results cs l hl
      · simp only [collect, hres, if_neg hdf] at hl
        rcases List.mem_cons.mp hl with rfl | hl
        · simpa using hdf
        · exact collect_mem_ne_nil results cs l hl
    | error e =>
      simp only [collect, hres] at hl
      exact collect_mem_ne_nil results cs l hl

theorem buildMerged_ok {results : String → Except FetchError (List HourlyObservation)}
    {cities : List String} {df : List HourlyObservation}
    (h : buildMerged results cities = .ok df) :
    (collect results cities).1 ≠ [] ∧
    df = sortByTime ((collect results cities).1).flatten := by
  rw [buildMerged] at h
  by_cases hd : ((collect results cities).1).isEmpty = true
  · rw [if_pos hd] at h
    exact absurd h (by simp)
  · rw [if_neg hd] at h
    exact ⟨by simpa [List.isEmpty_iff] using hd, (Except.ok.inj h).symm⟩

theorem buildMerged_sorted {results : String → Except FetchError (List HourlyObservation)}
    {cities : List String} {df : List HourlyObservation}
    (h : buildMerged results cities = .ok df) : List.Sorted timeLe df := by
  obtain ⟨-, rfl⟩ := buildMerged_ok h
  exact List.sorted_insertionSort timeLe _

theorem buildMerged_ok_ne_nil {results : String → Except FetchError (List HourlyObservation)}
    {cities : List String} {df : List HourlyObservation}
    (h : buildMerged results cities = .ok df) : df ≠ [] := by
  obtain ⟨hne, rfl⟩ := buildMerged_ok h
  cases hcol : (collect results cities).1 with
  | nil => exact absurd hcol hne
  | cons l ls =>
    have hl : l ≠ [] := collect_mem_ne_nil results cities l
      (by rw [hcol]; exact List.mem_cons_self l ls)
    intro hcontra
    have hlen : (sortByTime ((l :: ls).flatten)).length = 0 := by
      rw [hcontra]; rfl
    rw [sortByTime, List.length_insertionSort, List.flatten_cons,
      List.length_append] at hlen
    exact hl (List.length_eq_zero.mp (by omega))

/-! ### The `idxmax` scan -/

theorem foldl_maxStep_mem (f : HourlyObservation → ℚ) :
    ∀ (xs : List HourlyObservation) (x : HourlyObservation),
      xs.foldl (maxStep f) x ∈ x :: xs
  | [], x => List.mem_cons_self x []
  | y :: ys, x => by
    rw [List.foldl_cons]
    rcases List.mem_cons.mp (foldl_maxStep_mem f ys (maxStep f x y)) with h | h
    · rw [h]
      unfold maxStep
      split
      · exact List.mem_cons_of_mem x (List.mem_cons_self y ys)
      · exact List.mem_cons_self x _
    · exact List.mem_cons_of_mem x (List.mem_cons_of_mem y h)

theorem foldl_maxStep_le (f : HourlyObservation → ℚ) :
    ∀ (xs : List HourlyObservation) (x : HourlyObservation),
      ∀ y ∈ x :: xs, f y ≤ f (xs.foldl (maxStep f) x)
  | [], x => by simp
  | y :: ys, x => by
    intro w hw
    rw [List.foldl_cons]
    have hstep : f x ≤ f (maxStep f x y) ∧ f y ≤ f (maxStep f x y) := by
      by_cases hf : f x < f y
      · simp only [maxStep, if_pos hf]
        exact ⟨le_of_lt hf, le_refl _⟩
      · simp only [maxStep, if_neg hf]
        exact ⟨le_refl _, le_of_not_lt hf⟩
    have hb := foldl_maxStep_le f ys (maxStep f x y)
    rcases List.mem_cons.mp hw with rfl | hw'
    · exact le_trans hstep.1 (hb _ (List.mem_cons_self _ _))
    rcases List.mem_cons.mp hw' with rfl | hw''
    · exact le_trans hstep.2 (hb _ (List.mem_cons_self _ _))
    · exact hb w (List.mem_cons_of_mem _ hw'')

theorem foldl_maxStep_first (f : HourlyObservation → ℚ) :
    ∀ (xs : List HourlyObservation) (x : HourlyObservation),
      List.Sorted timeLe (x :: xs) →
      ∀ y ∈ x :: xs, f y = f (xs.foldl (maxStep f) x) →
        (xs.foldl (maxStep f) x).time ≤ y.time
  | [], x, _ => by simp
  | y :: ys, x, hs => by
    intro w hw hfw
    rw [List.foldl_cons] at hfw ⊢
    have hx_y : timeLe x y := (List.sorted_cons.mp hs).1 y (List.mem_cons_self y ys)
    have hs' : List.Sorted timeLe (y :: ys) := (List.sorted_cons.mp hs).2
    have hsz : List.Sorted timeLe (maxStep f x y :: ys) := by
      by_cases hf : f x < f y
      · simpa [maxStep, hf] using hs'
      · simp only [maxStep, if_neg hf]
        exact List.sorted_cons.mpr
          ⟨fun b hb => (List.sorted_cons.mp hs).1 b (List.mem_cons_of_mem y hb),
           (List.sorted_cons.mp hs').2⟩
    have ihC := foldl_maxStep_first f ys (maxStep f x y) hsz
    have hB := foldl_maxStep_le f ys (maxStep f x y)
    rcases List.mem_cons.mp hw with rfl | hw'
    · -- here the scanned head `x` is the row `w` in question
      by_cases hf : f w < f y
      · exfalso
        have hym : f y ≤ f (ys.foldl (maxStep f) (maxStep f w y)) := by
          refine le_trans ?_ (hB _ (List.mem_cons_self _ _))
          simp [maxStep, hf]
        rw [← hfw] at hym
        exact absurd hf (not_lt.mpr hym)
      · exact ihC w (by simp [maxStep, hf]) hfw
    · rcases List.mem_cons.mp hw' with rfl | hw''
      · -- here the second element `y` is the row `w` in question
        by_cases hf : f x < f w
        · exact ihC w (by simp [maxStep, hf]) hfw
        · have hyx : f w ≤ f x := le_of_not_lt hf
          have hxm : f x ≤ f (ys.foldl (maxStep f) (maxStep f x w)) := by
            refine le_trans ?_ (hB _ (List.mem_cons_self _ _))
            simp [maxStep, hf]
          have hfx : f x = f (ys.foldl (maxStep f) (maxStep f x w)) :=
            le_antisymm hxm (le_trans (le_of_eq hfw.symm) hyx)
          have hmx : (ys.foldl (maxStep f) (maxStep f x w)).time ≤ x.time :=
            ihC x (by simp [maxStep, hf]) hfx
          exact le_trans hmx hx_y
      · exact ihC w (List.mem_cons_of_mem _ hw'') hfw

/-! ### The `groupby("city").tail(1)` step -/

theorem tailOnePerCity_subset :
    ∀ l : List HourlyObservation, ∀ s ∈ tailOnePerCity l, s ∈ l
  | [], s, hs => by simp [tailOnePerCity] at hs
  | x :: xs, s, hs => by
    by_cases hany : xs.any (fun r => r.city == x.city) = true
    · rw [tailOnePerCity, if_pos hany] at hs
      exact List.mem_cons_of_mem x (tailOnePerCity_subset xs s hs)
    · rw [tailOnePerCity, if_neg hany] at hs
      rcases List.mem_cons.mp hs with rfl | hs
      · exact List.mem_cons_self _ _
      · exact List.mem_cons_of_mem x (tailOnePerCity_subset xs s hs)

theorem tailOnePerCity_maxTime :
    ∀ l : List HourlyObservation, List.Sorted timeLe l →
      ∀ s ∈ tailOnePerCity l, ∀ r ∈ l, r.city = s.city → r.time ≤ s.time
  | [], _, s, hs => by simp [tailOnePerCity] at hs
  | x :: xs, hl, s, hs => by
    have hx := (List.sorted_cons.mp hl).1
    have hxs := (List.sorted_cons.mp hl).2
    by_cases hany : xs.any (fun r => r.city == x.city) = true
    · rw [tailOnePerCity, if_pos hany] at hs
      intro r hr hrc
      rcases List.mem_cons.mp hr with rfl | hr
      · exact hx s (tailOnePerCity_subset xs s hs)
      · exact tailOnePerCity_maxTime xs hxs s hs r hr hrc
    · rw [tailOnePerCity, if_neg hany] at hs
      intro r hr hrc
      rcases List.mem_cons.mp hs with rfl | hs2
      · rcases List.mem_cons.mp hr with rfl | hr2
        · exact le_refl _
        · exact absurd (List.any_eq_true.mpr ⟨r, hr2, by simp [hrc]⟩) hany
      · rcases List.mem_cons.mp hr with rfl | hr2
        · exact hx s (tailOnePerCity_subset xs s hs2)
        · exact tailOnePerCity_maxTime xs hxs s hs2 r hr2 hrc

theorem tailOnePerCity_countP (c : String) :
    ∀ l : List HourlyObservation,
      (tailOnePerCity l).countP (fun r => r.city == c) =
        if l.any (fun r => r.city == c) then 1 else 0
  | [] => by simp [tailOnePerCity]
  | x :: xs => by
    by_cases hany : xs.any (fun r => r.city == x.city) = true
    · rw [tailOnePerCity, if_pos hany, tailOnePerCity_countP c xs]
      by_cases hxc : x.city = c
      · have hc : xs.any (fun r => r.city == c) = true := by
          obtain ⟨r, hr, hrc⟩ := List.any_eq_true.mp hany
          exact List.any_eq_true.mpr ⟨r, hr, by simp at hrc ⊢; rw [hrc, hxc]⟩
        simp [List.any_cons, hc]
      · simp [List.any_cons, hxc]
    · rw [tailOnePerCity, if_neg hany, List.countP_cons, tailOnePerCity_countP c xs]
      by_cases hxc : x.city = c
      · have hc : xs.any (fun r => r.city == c) = false := by
          rw [List.any_eq_false]
          intro r hr hrc
          simp at hrc
          exact hany (List.any_eq_true.mpr ⟨r, hr, by simp [hrc, hxc]⟩)
        simp [List.any_cons, hxc, hc]
      · simp [List.any_cons, hxc]

/-! ### Helpers for failure handling and parsing -/

theorem collect_fst_nil_of_all_fail
    {results : String → Except FetchError (List HourlyObservation)} :
    ∀ cities : List String,
      (∀ c ∈ cities, (∃ e, results c = .error e) ∨ results c = .ok []) →
      (collect results cities).1 = []
  | [], _ => rfl
  | c :: cs, h => by
    have hrest := collect_fst_nil_of_all_fail cs
      (fun x hx => h x (List.mem_cons_of_mem c hx))
    rcases h c (List.mem_cons_self c cs) with ⟨e, he⟩ | he
    · simp [collect, he, hrest]
    · simp [collect, he, hrest]

theorem collect_filter_of_empty
    {results : String → Except FetchError (List HourlyObservation)} {c : String}
    (hres : results c = .ok []) :
    ∀ cities : List String,
      collect results (cities.filter (fun x => x != c)) = collect results cities
  | [] => rfl
  | x :: xs => by
    have ih := collect_filter_of_empty hres xs
    by_cases hxc : x = c
    · subst hxc
      rw [List.filter_cons, if_neg (by simp)]
      rw [ih]
      simp [collect, hres]
    · rw [List.filter_cons, if_pos (by simp [hxc])]
      cases hr : results x with
      | ok df => simp [collect, hr, ih]
      | error e => simp [collect, hr, ih]

theorem mkRows_length :
    ∀ (c : String) (ts : List Nat) (xs ws ds : List ℚ),
      xs.length = ts.length → ws.length = ts.length → ds.length = ts.length →
      (mkRows c ts xs ws ds).length = ts.length
  | _, [], xs, ws, ds, _, _, _ => by
    cases xs <;> cases ws <;> cases ds <;> simp [mkRows]
  | _, t :: ts, [], ws, ds, hx, _, _ => by simp at hx
  | _, t :: ts, x :: xs, [], ds, _, hw, _ => by simp at hw
  | _, t :: ts, x :: xs, w :: ws, [], _, _, hd => by simp at hd
  | c, t :: ts, x :: xs, w :: ws, d :: ds, hx, hw, hd => by
    have ih := mkRows_length c ts xs ws ds (by simpa using hx) (by simpa using hw)
      (by simpa using hd)
    simp [mkRows, ih]

theorem mkRows_getD :
    ∀ (c : String) (ts : List Nat) (xs ws ds : List ℚ) (i : Nat),
      xs.length = ts.length → ws.length = ts.length → ds.length = ts.length →
      i < ts.length →
      (mkRows c ts xs ws ds).getD i ⟨"", 0, 0, 0, 0⟩ =
        ⟨c, ts.getD i 0, xs.getD i 0, ws.getD i 0, ds.getD i 0⟩
  | _, [], _, _, _, i, _, _, _, hi => by simp at hi
  | _, t :: ts, [], ws, ds, i, hx, _, _, _ => by simp at hx
  | _, t :: ts, x :: xs, [], ds, i, _, hw, _, _ => by simp at hw
  | _, t :: ts, x :: xs, w :: ws, [], i, _, _, hd, _ => by simp at hd
  | c, t :: ts, x :: xs, w :: ws, d :: ds, 0, _, _, _, _ => by simp [mkRows]
  | c, t :: ts, x :: xs, w :: ws, d :: ds, i + 1, hx, hw, hd, hi => by
    simp only [mkRows, List.getD_cons_succ]
    exact mkRows_getD c ts xs ws ds i (by simpa using hx) (by simpa using hw)
      (by simpa using hd) (by simpa using hi)

/-! ### Concrete runs used by witnesses and the counterexample -/

/-- Riyadh row used by the tie-break counterexample (same timestamp as the
Jeddah row). -/
def cexRowR : HourlyObservation := ⟨"Riyadh", 10, 41, 3, 100⟩

/-- Jeddah row used by the tie-break counterexample. -/
def cexRowJ : HourlyObservation := ⟨"Jeddah", 10, 38, 9, 200⟩

/-- Per-city outcomes for the tie-break counterexample. -/
def cexResults : String → Except FetchError (List HourlyObservation) :=
  fun c =>
    if c = "Riyadh" then .ok [cexRowR]
    else if c = "Jeddah" then .ok [cexRowJ]
    else .error .NetworkError

def w1RowR : HourlyObservation := ⟨"Riyadh", 5, 40, 2, 0⟩

def w1RowJ : HourlyObservation := ⟨"Jeddah", 3, 30, 7, 0⟩

def w1Results : String → Except FetchError (List HourlyObservation) :=
  fun c =>
    if c = "Riyadh" then .ok [w1RowR]
    else if c = "Jeddah" then .ok [w1RowJ]
    else .error .NetworkError

/-! ### Claim theorems -/

/-- C1 (amended): whenever the aggregation step succeeds, the merged
ObservationSet is exactly the union (as a multiset) of the successful
per-city row lists, sorted by timestamp ascending.  No tie-breaking by
city name is applied; the relative order of equal-timestamp rows is left
unspecified. -/
theorem merged_is_sorted_union
    (results : String → Except FetchError (List HourlyObservation))
    (cities : List String) (df : List HourlyObservation)
    (h : buildMerged results cities = .ok df) :
    df.Perm (successRows results cities) ∧ List.Sorted timeLe df := by
  obtain ⟨-, rfl⟩ := buildMerged_ok h
  refine ⟨?_, List.sorted_insertionSort timeLe _⟩
  rw [← collect_fst_flatten results cities]
  exact List.perm_insertionSort timeLe _

/-- Witness for C1 at a concrete two-city run (Jeddah's row is earlier, so
the merge reorders the concatenation [Riyadh-row, Jeddah-row]). -/
theorem merged_is_sorted_union_witness :
    ([w1RowJ, w1RowR] : List HourlyObservation).Perm
        (successRows w1Results ["Riyadh", "Jeddah"]) ∧
    List.Sorted timeLe [w1RowJ, w1RowR] :=
  merged_is_sorted_union w1Results ["Riyadh", "Jeddah"] [w1RowJ, w1RowR] (by rfl)

/-- Counterexample to C1 as stated: with Riyadh selected before Jeddah and
both rows carrying the same timestamp, the merged set keeps Riyadh first,
although tie-breaking by city name would put Jeddah ("Jeddah" < "Riyadh")
first — the merged set is not sorted by (timestamp, city name). -/
theorem merged_no_city_tiebreak :
    buildMerged cexResults ["Riyadh", "Jeddah"] = .ok [cexRowR, cexRowJ] ∧
    cexRowR.time = cexRowJ.time ∧ cexRowJ.city < cexRowR.city ∧
    ¬ List.Sorted timeCityLe [cexRowR, cexRowJ] := by
  refine ⟨rfl, rfl, ?_, ?_⟩
  · show ("Jeddah" : String) < "Riyadh"
    rw [String.lt_iff_toList_lt]
    decide
  · intro hsort
    have h1 := (List.sorted_cons.mp hsort).1 cexRowJ (List.mem_cons_self _ _)
    simp only [timeCityLe] at h1
    rcases h1 with h1 | h1
    · exact absurd h1 (by decide)
    · have h2 : ("Riyadh" : String) ≤ "Jeddah" := h1.2
      rw [String.le_iff_toList_le] at h2
      exact absurd h2 (by decide)

/-- C2: on every successful merge, `hottest_row` is a row of the merged set
attaining the maximum temperature and `windiest_row` one attaining the
maximum wind speed, and on ties each is the row with the earliest
timestamp among the maximisers. -/
theorem extremes_correct
    (results : String → Except FetchError (List HourlyObservation))
    (cities : List String) (df : List HourlyObservation)
    (h : buildMerged results cities = .ok df) :
    ∃ hot wind, hottestRow df = some hot ∧ windiestRow df = some wind ∧
      hot ∈ df ∧ (∀ r ∈ df, r.temp ≤ hot.temp) ∧
      (∀ r ∈ df, r.temp = hot.temp → hot.time ≤ r.time) ∧
      wind ∈ df ∧ (∀ r ∈ df, r.windspeed ≤ wind.windspeed) ∧
      (∀ r ∈ df, r.windspeed = wind.windspeed → wind.time ≤ r.time) := by
  have hsorted := buildMerged_sorted h
  have hne := buildMerged_ok_ne_nil h
  match df, hne, hsorted with
  | x :: xs, _, hsorted =>
    refine ⟨xs.foldl (maxStep (fun r => r.temp)) x,
      xs.foldl (maxStep (fun r => r.windspeed)) x, rfl, rfl,
      foldl_maxStep_mem _ xs x, foldl_maxStep_le _ xs x,
      foldl_maxStep_first _ xs x hsorted,
      foldl_maxStep_mem _ xs x, foldl_maxStep_le _ xs x,
      foldl_maxStep_first _ xs x hsorted⟩

def w2RowR : HourlyObservation := ⟨"Riyadh", 1, 41, 3, 0⟩

def w2RowJ : HourlyObservation := ⟨"Jeddah", 2, 38, 9, 0⟩

def w2Results : String → Except FetchError (List HourlyObservation) :=
  fun c =>
    if c = "Riyadh" then .ok [w2RowR]
    else if c = "Jeddah" then .ok [w2RowJ]
    else .error .NetworkError

/-- Witness for C2 at the spec's test vector: (Riyadh, 41 °C, 3 m/s) and
(Jeddah, 38 °C, 9 m/s) — the hottest row is Riyadh's, the windiest is
Jeddah's. -/
theorem extremes_correct_witness :
    hottestRow [w2RowR, w2RowJ] = some w2RowR ∧
    windiestRow [w2RowR, w2RowJ] = some w2RowJ ∧
    (∃ hot wind, hottestRow [w2RowR, w2RowJ] = some hot ∧
      windiestRow [w2RowR, w2RowJ] = some wind ∧
      hot ∈ [w2RowR, w2RowJ] ∧ (∀ r ∈ [w2RowR, w2RowJ], r.temp ≤ hot.temp) ∧
      (∀ r ∈ [w2RowR, w2RowJ], r.temp = hot.temp → hot.time ≤ r.time) ∧
      wind ∈ [w2RowR, w2RowJ] ∧
      (∀ r ∈ [w2RowR, w2RowJ], r.windspeed ≤ wind.windspeed) ∧
      (∀ r ∈ [w2RowR, w2RowJ], r.windspeed = wind.windspeed → wind.time ≤ r.time)) :=
  ⟨by decide, by decide,
   extremes_correct w2Results ["Riyadh", "Jeddah"] [w2RowR, w2RowJ] (by rfl)⟩

/-- C10: the LatestSnapshot table handed to the presentation layer is
ordered by city name ascending, for every merged ObservationSet. -/
theorem latest_sorted_by_city (df : List HourlyObservation) :
    List.Sorted cityLe (latestRows df) :=
  List.sorted_insertionSort cityLe (tailOnePerCity (sortByTime df))

/-- C3: on every successful merge, each city present in the merged set has
exactly one row in the latest-snapshot table, namely a row of that city
with the maximum timestamp among the city's rows (selection is by
timestamp, not by temperature). -/
theorem latest_snapshot_correct
    (results : String → Except FetchError (List HourlyObservation))
    (cities : List String) (df : List HourlyObservation) (c : String)
    (h : buildMerged results cities = .ok df)
    (hc : ∃ r ∈ df, r.city = c) :
    ∃ s, s ∈ latestRows df ∧ s.city = c ∧ s ∈ df ∧
      (∀ r ∈ df, r.city = c → r.time ≤ s.time) ∧
      (latestRows df).countP (fun r => r.city == c) = 1 := by
  have hsorted := buildMerged_sorted h
  have hlr : latestRows df = sortByCity (tailOnePerCity df) := by
    rw [latestRows, sortByTime, hsorted.insertionSort_eq]
  have hperm : (sortByCity (tailOnePerCity df)).Perm (tailOnePerCity df) :=
    List.perm_insertionSort cityLe _
  have hany : df.any (fun r => r.city == c) = true := by
    obtain ⟨r, hr, hrc⟩ := hc
    exact List.any_eq_true.mpr ⟨r, hr, by simp [hrc]⟩
  have hcount : (tailOnePerCity df).countP (fun r => r.city == c) = 1 := by
    rw [tailOnePerCity_countP c df, if_pos hany]
  have hcount' : (latestRows df).countP (fun r => r.city == c) = 1 := by
    rw [hlr, hperm.countP_eq]
    exact hcount
  have hpos : 0 < (tailOnePerCity df).countP (fun r => r.city == c) := by
    rw [hcount]
    exact Nat.zero_lt_one
  obtain ⟨s, hsmem, hsc⟩ := List.countP_pos_iff.mp hpos
  have hsceq : s.city = c := by simpa using hsc
  refine ⟨s, ?_, hsceq, tailOnePerCity_subset df s hsmem,
    fun r hr hrc => tailOnePerCity_maxTime df hsorted s hsmem r hr (hrc.trans hsceq.symm),
    hcount'⟩
  rw [hlr]
  exact hperm.mem_iff.mpr hsmem

def w3RowOld : HourlyObservation := ⟨"Riyadh", 1, 50, 1, 0⟩

def w3RowNew : HourlyObservation := ⟨"Riyadh", 2, 20, 1, 0⟩

def w3Results : String → Except FetchError (List HourlyObservation) :=
  fun c => if c = "Riyadh" then .ok [w3RowOld, w3RowNew] else .error .NetworkError

/-- Witness for C3 at a run with two Riyadh rows: the snapshot row is the
later (2 o'clock, 20 °C) row, not the hotter (1 o'clock, 50 °C) one. -/
theorem latest_snapshot_correct_witness :
    latestRows [w3RowOld, w3RowNew] = [w3RowNew] ∧
    (∃ s, s ∈ latestRows [w3RowOld, w3RowNew] ∧ s.city = "Riyadh" ∧
      s ∈ [w3RowOld, w3RowNew] ∧
      (∀ r ∈ [w3RowOld, w3RowNew], r.city = "Riyadh" → r.time ≤ s.time) ∧
      (latestRows [w3RowOld, w3RowNew]).countP (fun r => r.city == "Riyadh") = 1) :=
  ⟨by decide,
   latest_snapshot_correct w3Results ["Riyadh"] [w3RowOld, w3RowNew] "Riyadh"
     (by rfl) (by decide)⟩

/-- C4: in a two-city selection where city A's fetch raises and city B's
fetch succeeds with data, the aggregation succeeds, its merged set holds
exactly B's rows, and exactly one warning — for A — is recorded: one bad
city does not abort the run. -/
theorem partial_failure
    (results : String → Except FetchError (List HourlyObservation))
    (A B : String) (e : FetchError) (dfB : List HourlyObservation)
    (_hAB : A ≠ B) (hA : results A = .error e) (hB : results B = .ok dfB)
    (hne : dfB ≠ []) :
    buildMerged results [A, B] = .ok (sortByTime dfB) ∧
    (sortByTime dfB).Perm dfB ∧
    buildWarnings results [A, B] = [A] ∧
    ∃ d, build results [A, B] = .ok d ∧ d.observations.Perm dfB := by
  obtain ⟨x, xs, rfl⟩ := List.exists_cons_of_ne_nil hne
  have hcol : collect results [A, B] = ([x :: xs], [A]) := by
    simp [collect, hA, hB]
  have hm : buildMerged results [A, B] = .ok (sortByTime (x :: xs)) := by
    rw [buildMerged, hcol]
    simp
  refine ⟨hm, List.perm_insertionSort timeLe _, ?_, ?_⟩
  · rw [buildWarnings, hcol]
  · exact ⟨_, by rw [build, hm]; rfl, List.perm_insertionSort timeLe _⟩

def w4RowB : HourlyObservation := ⟨"Riyadh", 1, 30, 5, 0⟩

def w4Results : String → Except FetchError (List HourlyObservation) :=
  fun c => if c = "Riyadh" then .ok [w4RowB] else .error .NetworkError

/-- Witness for C4: Abha's fetch raises `NetworkError`, Riyadh succeeds with
one row; the run succeeds with Riyadh's row only and one warning for Abha. -/
theorem partial_failure_witness :
    buildMerged w4Results ["Abha", "Riyadh"] = .ok (sortByTime [w4RowB]) ∧
    (sortByTime [w4RowB]).Perm [w4RowB] ∧
    buildWarnings w4Results ["Abha", "Riyadh"] = ["Abha"] ∧
    (∃ d, build w4Results ["Abha", "Riyadh"] = .ok d ∧
      d.observations.Perm [w4RowB]) :=
  partial_failure w4Results "Abha" "Riyadh" .NetworkError [w4RowB]
    (by decide) (by rfl) (by rfl) (by decide)

/-- C5: when every selected city either fails or returns an empty result,
the aggregation fails with `NoDataError`: the script stops and no derived
view (snapshot, pivots, extremes) is produced. -/
theorem total_failure
    (results : String → Except FetchError (List HourlyObservation))
    (cities : List String)
    (h : ∀ c ∈ cities, (∃ e, results c = .error e) ∨ results c = .ok []) :
    buildMerged results cities = .error .NoDataError ∧
    build results cities = .error .NoDataError := by
  have hnil := collect_fst_nil_of_all_fail cities h
  have hm : buildMerged results cities = .error .NoDataError := by
    rw [buildMerged, hnil]
    rfl
  exact ⟨hm, by rw [build, hm]; rfl⟩

def w5Results : String → Except FetchError (List HourlyObservation) :=
  fun c => if c = "Jeddah" then .ok [] else .error .NetworkError

/-- Witness for C5: Riyadh's fetch raises and Jeddah returns an empty frame;
the whole run fails with `NoDataError` and no `Derived` value exists. -/
theorem total_failure_witness :
    buildMerged w5Results ["Riyadh", "Jeddah"] = .error .NoDataError ∧
    build w5Results ["Riyadh", "Jeddah"] = .error .NoDataError :=
  total_failure w5Results ["Riyadh", "Jeddah"] (by
    intro c hc
    rcases List.mem_cons.mp hc with rfl | hc
    · exact Or.inl ⟨.NetworkError, rfl⟩
    rcases List.mem_cons.mp hc with rfl | hc
    · exact Or.inr rfl
    · simp at hc)

/-- C6: starting from a cache with no entry for the key, a successful
`getOrFetch` followed by a second `getOrFetch` with identical parameters
within 300 seconds of the entry's creation issues exactly one network call
in total; the second call returns the stored value and never consults the
fetcher (it may even be a different function). -/
theorem cache_hit_within_ttl
    (fetcher fetcher2 : CacheKey → Except FetchError (List HourlyObservation))
    (s : CacheState) (k : CacheKey) (v : List HourlyObservation) (t0 t1 : Nat)
    (hcold : lookupEntry s k = none) (hfetch : fetcher k = .ok v)
    (httl : t1 - t0 < TTL) :
    (getOrFetch fetcher s k t0).calls = 1 ∧
    (getOrFetch fetcher s k t0).result = .ok v ∧
    (getOrFetch fetcher2 (getOrFetch fetcher s k t0).state k t1).calls = 0 ∧
    (getOrFetch fetcher2 (getOrFetch fetcher s k t0).state k t1).result = .ok v ∧
    (getOrFetch fetcher s k t0).calls +
      (getOrFetch fetcher2 (getOrFetch fetcher s k t0).state k t1).calls = 1 := by
  have h1 : getOrFetch fetcher s k t0 = ⟨.ok v, storeEntry s k ⟨v, t0⟩, 1⟩ := by
    simp [getOrFetch, hcold, hfetch]
  have hlook : lookupEntry (storeEntry s k ⟨v, t0⟩) k = some ⟨v, t0⟩ := by
    rw [storeEntry, lookupEntry, if_pos rfl]
  have h2 : getOrFetch fetcher2 (storeEntry s k ⟨v, t0⟩) k t1 =
      ⟨.ok v, storeEntry s k ⟨v, t0⟩, 0⟩ := by
    simp [getOrFetch, hlook, httl]
  rw [h1]
  exact ⟨rfl, rfl, by rw [h2], by rw [h2], by rw [h2]; rfl⟩

def w6Row : HourlyObservation := ⟨"Riyadh", 1, 30, 5, 0⟩

def w6Key : CacheKey := ⟨"Riyadh", 24, 46, 1⟩

/-- Witness for C6: a cold cache, a fetch at t=0 and a second call at t=100
with a fetcher that would fail — the second call still returns the cached
rows and makes no network call. -/
theorem cache_hit_within_ttl_witness :
    (getOrFetch (fun _ => .ok [w6Row]) [] w6Key 0).calls = 1 ∧
    (getOrFetch (fun _ => .ok [w6Row]) [] w6Key 0).result = .ok [w6Row] ∧
    (getOrFetch (fun _ => .error .NetworkError)
      (getOrFetch (fun _ => .ok [w6Row]) [] w6Key 0).state w6Key 100).calls = 0 ∧
    (getOrFetch (fun _ => .error .NetworkError)
      (getOrFetch (fun _ => .ok [w6Row]) [] w6Key 0).state w6Key 100).result =
      .ok [w6Row] ∧
    (getOrFetch (fun _ => .ok [w6Row]) [] w6Key 0).calls +
      (getOrFetch (fun _ => .error .NetworkError)
        (getOrFetch (fun _ => .ok [w6Row]) [] w6Key 0).state w6Key 100).calls = 1 :=
  cache_hit_within_ttl (fun _ => .ok [w6Row]) (fun _ => .error .NetworkError)
    [] w6Key [w6Row] 0 100 (by rfl) (by rfl) (by decide)

/-- C7: after `invalidateAll`, the next `getOrFetch` always issues exactly
one network call — whatever TTL remained on any previously cached entry —
and returns whatever the fetcher returns. -/
theorem invalidate_forces_refetch
    (fetcher : CacheKey → Except FetchError (List HourlyObservation))
    (s : CacheState) (k : CacheKey) (now : Nat) :
    (getOrFetch fetcher (invalidateAll s) k now).calls = 1 ∧
    (getOrFetch fetcher (invalidateAll s) k now).result = fetcher k := by
  rw [invalidateAll]
  cases hf : fetcher k with
  | ok v => simp [getOrFetch, lookupEntry, hf]
  | error e => simp [getOrFetch, lookupEntry, hf]

/-- C8: a successful HTTP response with no hourly series parses to an empty
result — not an error — and downstream such a city is skipped: dropping it
from the selection changes neither the merged set nor the warnings. -/
theorem empty_payload_skipped
    (results : String → Except FetchError (List HourlyObservation))
    (cities : List String) (c : String)
    (hres : results c = .ok []) :
    fetch_city_hourly c none = .ok [] ∧
    buildMerged results cities = buildMerged results (cities.filter (fun x => x != c)) ∧
    buildWarnings results cities = buildWarnings results (cities.filter (fun x => x != c)) := by
  have hcol := collect_filter_of_empty hres cities
  exact ⟨rfl, by rw [buildMerged, buildMerged, hcol], by rw [buildWarnings, buildWarnings, hcol]⟩

def w8Row : HourlyObservation := ⟨"Riyadh", 1, 30, 5, 0⟩

def w8Results : String → Except FetchError (List HourlyObservation) :=
  fun c =>
    if c = "Riyadh" then .ok [w8Row]
    else if c = "Dammam" then .ok []
    else .error .NetworkError

/-- Witness for C8: Dammam returns an empty frame; the run over
["Riyadh", "Dammam"] equals the run over ["Riyadh"] alone. -/
theorem empty_payload_skipped_witness :
    fetch_city_hourly "Dammam" none = .ok [] ∧
    buildMerged w8Results ["Riyadh", "Dammam"] =
      buildMerged w8Results (["Riyadh", "Dammam"].filter (fun x => x != "Dammam")) ∧
    buildWarnings w8Results ["Riyadh", "Dammam"] =
      buildWarnings w8Results (["Riyadh", "Dammam"].filter (fun x => x != "Dammam")) :=
  empty_payload_skipped w8Results ["Riyadh", "Dammam"] "Dammam" (by rfl)

/-- C9: with a payload present, inconsistent parallel-array lengths make the
fetch fail with `MalformedResponseError`; consistent lengths yield one
row-aligned record per index, pairing the i-th element of each array. -/
theorem parse_parallel_arrays (c : String) (p : HourlyPayload) :
    (¬(p.temperature_2m.length = p.time.length ∧ p.windspeed_10m.length = p.time.length ∧
        p.winddirection_10m.length = p.time.length) →
      fetch_city_hourly c (some p) = .error .MalformedResponseError) ∧
    ((p.temperature_2m.length = p.time.length ∧ p.windspeed_10m.length = p.time.length ∧
        p.winddirection_10m.length = p.time.length) →
      ∃ rows, fetch_city_hourly c (some p) = .ok rows ∧
        rows.length = p.time.length ∧
        ∀ i, i < p.time.length →
          rows.getD i ⟨"", 0, 0, 0, 0⟩ =
            ⟨c, p.time.getD i 0, p.temperature_2m.getD i 0, p.windspeed_10m.getD i 0,
              p.winddirection_10m.getD i 0⟩) := by
  constructor
  · intro hbad
    simp only [fetch_city_hourly]
    rw [if_neg hbad]
  · intro hgood
    refine ⟨mkRows c p.time p.temperature_2m p.windspeed_10m p.winddirection_10m, ?_, ?_, ?_⟩
    · simp only [fetch_city_hourly]
      rw [if_pos hgood]
    · exact mkRows_length c _ _ _ _ hgood.1 hgood.2.1 hgood.2.2
    · exact fun i hi => mkRows_getD c _ _ _ _ i hgood.1 hgood.2.1 hgood.2.2 hi

/-- Witness for C9: a ragged payload ([1, 2] against a single temperature)
fails with `MalformedResponseError`; a consistent one-hour payload parses to
the single row pairing the arrays' heads. -/
theorem parse_parallel_arrays_witness :
    fetch_city_hourly "Riyadh" (some ⟨[1, 2], [20], [3, 3], [7, 7]⟩) =
      .error .MalformedResponseError ∧
    (∃ rows, fetch_city_hourly "Riyadh" (some ⟨[1], [20], [3], [7]⟩) = .ok rows ∧
      rows.length = ([1] : List Nat).length ∧
      ∀ i, i < ([1] : List Nat).length →
        rows.getD i ⟨"", 0, 0, 0, 0⟩ =
          ⟨"Riyadh", ([1] : List Nat).getD i 0, ([20] : List ℚ).getD i 0,
            ([3] : List ℚ).getD i 0, ([7] : List ℚ).getD i 0⟩) :=
  ⟨(parse_parallel_arrays "Riyadh" ⟨[1, 2], [20], [3, 3], [7, 7]⟩).1 (by decide),
   (parse_parallel_arrays "Riyadh" ⟨[1], [20], [3], [7]⟩).2 (by decide)⟩
